import Mathlib

/-!
Verification of the client-side cache subsystem of the sp-aroma storefront
(`src/frontend/src/lib/cache.ts` and the caching wrappers in
`src/frontend/src/lib/api.ts`).

The embedding models:
* JSON values and `JSON.stringify` (the serialization `generateHash` hashes);
* `generateHash` with JavaScript 32-bit signed integer semantics
  (`(h << 5) - h + c`, `h & h`, `Math.abs`, `toString(36)`), iterating over
  UTF-16 code units as `charCodeAt` does;
* the persistent cache state: the IndexedDB products store, the
  `sp_aroma_products_meta` localStorage slot and the `sp_aroma_user`
  localStorage slot;
* the operations `ProductCache.set/get/getById/clear/isExpired`,
  `UserCache.set/get/clear/isExpired`, `invalidateCache`, and the wrappers
  `apiCheckout` and `apiGetProduct`.

Asynchrony: `ProductCache.clear` is an async function whose storage effects
all happen after its first `await initDB()`; `invalidateCache` invokes it
without awaiting its promise and returns `undefined`.  The model therefore
returns, next to the immediately-applied state, a list of pending effects:
the effects a fire-and-forgotten async call performs only after the caller's
promise chain has already resolved.
-/

/-- JSON values as produced by `JSON.parse` on the backend responses.
Numbers are modelled as integers (the claims never depend on float
formatting). -/
inductive Json where
  | null : Json
  | bool : Bool → Json
  | num : Int → Json
  | str : String → Json
  | arr : List Json → Json
  | obj : List (String × Json) → Json

/-- Lower-case hexadecimal digit, used for `\u00XX` escapes. -/
def hexDigit (n : Nat) : Char :=
  if n < 10 then Char.ofNat (48 + n) else Char.ofNat (87 + n)

/-- Escaping of a single character as done by `JSON.stringify` for string
values: `"` and `\` are escaped, the named control escapes are used for
backspace, tab, newline, form feed and carriage return, any other control
character becomes `\u00XX`, and everything else is emitted literally. -/
def escapeChar (c : Char) : String :=
  if c = Char.ofNat 34 then "\\\""
  else if c = Char.ofNat 92 then "\\\\"
  else if c = Char.ofNat 8 then "\\b"
  else if c = Char.ofNat 9 then "\\t"
  else if c = Char.ofNat 10 then "\\n"
  else if c = Char.ofNat 12 then "\\f"
  else if c = Char.ofNat 13 then "\\r"
  else if c.toNat < 32 then "\\u00" ++ String.mk [hexDigit (c.toNat / 16), hexDigit (c.toNat % 16)]
  else String.mk [c]

/-- Escape every character of a string (`JSON.stringify` string body). -/
def escapeString (s : String) : String :=
  String.join (s.data.map escapeChar)

mutual

/-- Model of `JSON.stringify` (no spacing, insertion-ordered object keys),
the serialization `generateHash` is applied to in `cache.ts` line 13. -/
def stringifyJson : Json → String
  | Json.null => "null"
  | Json.bool b => if b then "true" else "false"
  | Json.num n => toString n
  | Json.str s => "\"" ++ escapeString s ++ "\""
  | Json.arr es => "[" ++ stringifyList es ++ "]"
  | Json.obj fs => "\x7b" ++ stringifyFields fs ++ "\x7d"

/-- Comma-separated serialization of a JSON array's elements. -/
def stringifyList : List Json → String
  | [] => ""
  | [j] => stringifyJson j
  | j :: js => stringifyJson j ++ "," ++ stringifyList js

/-- Comma-separated serialization of a JSON object's fields. -/
def stringifyFields : List (String × Json) → String
  | [] => ""
  | [(k, v)] => "\"" ++ escapeString k ++ "\":" ++ stringifyJson v
  | (k, v) :: fs => "\"" ++ escapeString k ++ "\":" ++ stringifyJson v ++ "," ++ stringifyFields fs

end

/-- UTF-16 code units of a character, as `String.prototype.charCodeAt`
enumerates them: one unit below U+10000, a surrogate pair above. -/
def utf16Units (c : Char) : List Nat :=
  if c.toNat < 65536 then [c.toNat]
  else [55296 + (c.toNat - 65536) / 1024, 56320 + (c.toNat - 65536) % 1024]

/-- UTF-16 code units of a string. -/
def strUnits (s : String) : List Nat :=
  (s.data.map utf16Units).flatten

/-- Domain of `btoa`: every UTF-16 code unit is a Latin-1 byte.  On any
other string `btoa` throws `InvalidCharacterError`. -/
def latin1Ok (s : String) : Bool :=
  (strUnits s).all (fun u => decide (u ≤ 255))

/-- JavaScript `ToInt32`: reduce modulo 2^32 into the signed range. -/
def toInt32 (n : Int) : Int :=
  let m := n % 4294967296
  if m < 2147483648 then m else m - 4294967296

/-- One step of the hash loop in `generateHash` (`cache.ts` lines 15-19):
`hash = ((hash << 5) - hash) + char; hash = hash & hash;`.  `<<` truncates
to 32 bits, and `h & h` applies `ToInt32` to the exact sum. -/
def hashStep (h : Int) (c : Nat) : Int :=
  toInt32 (toInt32 (h * 32) - h + (c : Int))

/-- Base-36 digit, as used by `Number.prototype.toString(36)`. -/
def b36digit (n : Nat) : Char :=
  if n < 10 then Char.ofNat (48 + n) else Char.ofNat (87 + n)

/-- Fuelled most-significant-first digit accumulation for base 36. -/
def b36aux : Nat → Nat → List Char → List Char
  | 0, _, acc => acc
  | fuel + 1, n, acc => if n = 0 then acc else b36aux fuel (n / 36) (b36digit (n % 36) :: acc)

/-- `Number.prototype.toString(36)` on a natural number. -/
def natToBase36 (n : Nat) : String :=
  if n = 0 then "0" else String.mk (b36aux (n + 1) n [])

/-- `generateHash` (`cache.ts` lines 12-21): hash of the value's
`JSON.stringify` serialization, folded over UTF-16 code units, then
`Math.abs(hash).toString(36)`. -/
def generateHash (j : Json) : String :=
  natToBase36 ((strUnits (stringifyJson j)).foldl hashStep 0).natAbs

/-- `CACHE_DURATION` (`cache.ts` line 7): 30 minutes in milliseconds. -/
def CACHE_DURATION : Int := 30 * 60 * 1000

/-- `DB_VERSION` (`cache.ts` line 5). -/
def DB_VERSION : Int := 1

/-- A product record as stored in the catalog: its numeric identifier
(the IndexedDB store's `keyPath: 'id'`) and its full JSON object. -/
structure PRecord where
  id : Int
  data : Json

/-- An entry of the IndexedDB `products` store: the record together with
the `_cached_at` and `_hash` metadata fields `ProductCache.set` adds
(`cache.ts` lines 60-64). -/
structure StoredEntry where
  record : PRecord
  cached_at : Int
  hash : String

/-- Contents of the `sp_aroma_products_meta` localStorage slot.
`good` is a well-formed `{ timestamp, count, hash }` JSON object;
`bad` stands for any persisted string on which `JSON.parse` or the
`const { timestamp } = ...` destructuring throws. -/
inductive MetaBlob where
  | good : Int → Nat → String → MetaBlob
  | bad : MetaBlob

/-- Contents of the `sp_aroma_user` localStorage slot. `good data timestamp
hash` is the base64 blob `btoa(JSON.stringify({ data, timestamp, hash,
_version }))`; `bad` stands for any persisted string whose `atob`,
`JSON.parse` or field access throws during `UserCache.get`. -/
inductive UserBlob where
  | good : Json → Int → String → UserBlob
  | bad : UserBlob

/-- The persistent storage owned by the cache subsystem: the IndexedDB
`products` store (kept in ascending key order, as `getAll` returns it),
and the two localStorage slots. -/
structure CacheSt where
  productsStore : List StoredEntry
  productsMeta : Option MetaBlob
  userSlot : Option UserBlob

/-- Completely empty storage. -/
def emptySt : CacheSt := ⟨[], none, none⟩

/-- Insertion into the key-ordered store (IndexedDB keeps records sorted by
their key, here the record's `id`). -/
def insertSorted (e : StoredEntry) : List StoredEntry → List StoredEntry
  | [] => [e]
  | x :: xs => if e.record.id ≤ x.record.id then e :: x :: xs else x :: insertSorted e xs

/-- One `store.add` request.  `add` rejects a duplicate key; the model skips
the write in that case (the claims only exercise duplicate-free inputs, for
which `add` always succeeds). -/
def addEntry (st : List StoredEntry) (e : StoredEntry) : List StoredEntry :=
  if st.any (fun x => x.record.id == e.record.id) then st else insertSorted e st

/-- The stored entry `ProductCache.set` builds for one product:
`{ ...product, _cached_at: timestamp, _hash: generateHash(product) }`. -/
def mkEntry (p : PRecord) (now : Int) : StoredEntry :=
  ⟨p, now, generateHash p.data⟩

/-- The store contents after `ProductCache.set`'s clear-then-add loop
(`cache.ts` lines 56-65). -/
def buildStore (ps : List PRecord) (now : Int) : List StoredEntry :=
  ps.foldl (fun st p => addEntry st (mkEntry p now)) []

/-- `ProductCache.set` (`cache.ts` lines 46-78): clears the store, adds each
product tagged with `_cached_at`/`_hash`, and writes the
`{ timestamp, count, hash }` metadata to localStorage.  `now` is the
`Date.now()` read at line 52. -/
def productCacheSet (products : List PRecord) (now : Int) (s : CacheSt) : CacheSt :=
  { s with
    productsStore := buildStore products now
    productsMeta := some (MetaBlob.good now products.length
      (generateHash (Json.arr (products.map (fun p => p.data))))) }

/-- `ProductCache.clear` (`cache.ts` lines 156-167): empties the store and
removes the metadata slot. -/
def productCacheClear (s : CacheSt) : CacheSt :=
  { s with productsStore := [], productsMeta := none }

/-- The metadata-stripping projection of `ProductCache.get`
(`const { _cached_at, _hash, ...product } = p`). -/
def stripped (st : List StoredEntry) : List PRecord :=
  st.map (fun e => e.record)

/-- `ProductCache.get` (`cache.ts` lines 80-117): reads the metadata slot
(`null` when absent; a `JSON.parse` failure is caught and yields `null`
with no state change), clears and misses when the metadata timestamp is
older than `CACHE_DURATION`, otherwise returns all stored records with
metadata stripped — or `null` when the store is empty
(`products.length > 0 ? products : null`). -/
def productCacheGet (now : Int) (s : CacheSt) : CacheSt × Option (List PRecord) :=
  match s.productsMeta with
  | none => (s, none)
  | some MetaBlob.bad => (s, none)
  | some (MetaBlob.good t _ _) =>
    if now - t > CACHE_DURATION then (productCacheClear s, none)
    else
      let products := stripped s.productsStore
      (s, if products.length > 0 then some products else none)

/-- `ProductCache.getById` (`cache.ts` lines 119-154): point lookup in a
readonly transaction; misses when the record is absent or its
`_cached_at` age exceeds `CACHE_DURATION`; it never writes to storage. -/
def productCacheGetById (now : Int) (id : Int) (s : CacheSt) : CacheSt × Option PRecord :=
  match s.productsStore.find? (fun e => e.record.id == id) with
  | none => (s, none)
  | some e =>
    if now - e.cached_at > CACHE_DURATION then (s, none)
    else (s, some e.record)

/-- `ProductCache.isExpired` (`cache.ts` lines 169-174).  Unlike every other
operation it has no `try`/`catch`, so a metadata slot that `JSON.parse`
cannot parse makes it throw — modelled by `Except.error`. -/
def productCacheIsExpired (now : Int) (s : CacheSt) : Except Unit Bool :=
  match s.productsMeta with
  | none => Except.ok true
  | some MetaBlob.bad => Except.error ()
  | some (MetaBlob.good t _ _) => Except.ok (decide (now - t > CACHE_DURATION))

/-- The `cacheData` object `UserCache.set` serializes (`cache.ts` lines
184-189): `{ data: user, timestamp, hash: generateHash(user), _version }`. -/
def userCacheData (u : Json) (t : Int) : Json :=
  Json.obj [("data", u), ("timestamp", Json.num t),
            ("hash", Json.str (generateHash u)), ("_version", Json.num DB_VERSION)]

/-- `UserCache.set` (`cache.ts` lines 179-197): writes
`btoa(JSON.stringify(cacheData))` to the user slot.  `btoa` throws on any
string with a UTF-16 code unit above 255; the `catch` swallows the error,
leaving storage unchanged. -/
def userCacheSet (u : Json) (now : Int) (s : CacheSt) : CacheSt :=
  if latin1Ok (stringifyJson (userCacheData u now)) then
    { s with userSlot := some (UserBlob.good u now (generateHash u)) }
  else s

/-- `UserCache.clear` (`cache.ts` lines 228-230). -/
def userCacheClear (s : CacheSt) : CacheSt :=
  { s with userSlot := none }

/-- `UserCache.get` (`cache.ts` lines 199-226): miss on an absent slot;
an undecodable blob hits the `catch`, which clears the slot and returns
`null`; an expired or hash-mismatching blob is cleared and misses;
otherwise the decoded `data` is returned. -/
def userCacheGet (now : Int) (s : CacheSt) : CacheSt × Option Json :=
  match s.userSlot with
  | none => (s, none)
  | some UserBlob.bad => (userCacheClear s, none)
  | some (UserBlob.good d t h) =>
    if now - t > CACHE_DURATION then (userCacheClear s, none)
    else if generateHash d = h then (s, some d)
    else (userCacheClear s, none)

/-- `UserCache.isExpired` (`cache.ts` lines 232-241): age probe; its
`catch` turns any decode failure into `true`. -/
def userCacheIsExpired (now : Int) (s : CacheSt) : Bool :=
  match s.userSlot with
  | none => true
  | some UserBlob.bad => true
  | some (UserBlob.good _ t _) => decide (now - t > CACHE_DURATION)

/-- Storage effects initiated but not awaited by a caller: they run only
after the initiating function's promise has already resolved.
`ProductCache.clear()` is such an effect when `invalidateCache` invokes it
without `await` — every one of its writes happens after its internal
`await initDB()`, hence after `invalidateCache` has returned. -/
inductive PendingEff where
  | clearProducts : PendingEff

/-- Apply one pending effect to storage. -/
def runEff : PendingEff → CacheSt → CacheSt
  | PendingEff.clearProducts, s => productCacheClear s

/-- Apply all pending effects in order. -/
def runPending (effs : List PendingEff) (s : CacheSt) : CacheSt :=
  effs.foldl (fun st e => runEff e st) s

/-- Scope argument of `invalidateCache`. -/
inductive CacheScope where
  | products : CacheScope
  | user : CacheScope
  | all : CacheScope

/-- `invalidateCache` (`cache.ts` lines 245-254).  It is a synchronous
function returning `undefined`: it calls the async `ProductCache.clear()`
without awaiting it (a pending effect) and `UserCache.clear()`
synchronously (applied immediately).  `none` models a call with no
argument (`!type` branch, same as `'all'`). -/
def invalidateCache (scope : Option CacheScope) (s : CacheSt) : CacheSt × List PendingEff :=
  match scope with
  | none => (userCacheClear s, [PendingEff.clearProducts])
  | some CacheScope.all => (userCacheClear s, [PendingEff.clearProducts])
  | some CacheScope.products => (s, [PendingEff.clearProducts])
  | some CacheScope.user => (userCacheClear s, [])

/-- The truthiness of `response?.order` and `response?.success` in
`apiCheckout`. -/
structure CheckoutResp where
  hasOrder : Bool
  hasSuccess : Bool

/-- `apiCheckout` (`api.ts` lines 404-414) after the network response has
arrived: when the response carries an `order` or `success` field it runs
`await invalidateCache('products')` — but `invalidateCache` returns
`undefined`, so the `await` does not wait for the product-store clear,
which stays pending when `apiCheckout`'s promise resolves. -/
def apiCheckout (resp : CheckoutResp) (s : CacheSt) : CacheSt × List PendingEff :=
  if resp.hasOrder || resp.hasSuccess then invalidateCache (some CacheScope.products) s
  else (s, [])

/-- `apiGetProduct` (`api.ts` lines 270-286) after the network response
`resp` is available for the miss branch: on a cache hit it returns
`{ product: cached }` without touching the network; on a miss it returns
the network response and deliberately performs no cache write. -/
def apiGetProduct (now : Int) (pid : Int) (resp : Json) (s : CacheSt) : CacheSt × Json :=
  match (productCacheGetById now pid s).2 with
  | some p => (s, Json.obj [("product", p.data)])
  | none => (s, resp)

/-! ### Helper lemmas about the products store -/

theorem mem_insertSorted (e x : StoredEntry) (l : List StoredEntry) :
    x ∈ insertSorted e l ↔ x = e ∨ x ∈ l := by
  induction l with
  | nil => simp [insertSorted]
  | cons y ys ih =>
    unfold insertSorted
    split
    · simp only [List.mem_cons]
    · simp only [List.mem_cons, ih]
      tauto

theorem mem_addEntry (st : List StoredEntry) (e : StoredEntry)
    (hfresh : ∀ x ∈ st, ¬ x.record.id = e.record.id) (x : StoredEntry) :
    x ∈ addEntry st e ↔ x = e ∨ x ∈ st := by
  unfold addEntry
  have hany : st.any (fun x => x.record.id == e.record.id) = false := by
    rw [List.any_eq_false]
    intro a ha
    simpa using hfresh a ha
  rw [if_neg (by simp [hany])]
  exact mem_insertSorted e x st

theorem mem_foldAdd (t : Int) (ps : List PRecord) :
    ∀ (acc : List StoredEntry),
      (∀ p ∈ ps, ∀ a ∈ acc, ¬ a.record.id = p.id) →
      List.Pairwise (fun a b : PRecord => a.id ≠ b.id) ps →
      ∀ x, x ∈ ps.foldl (fun st p => addEntry st (mkEntry p t)) acc ↔
        x ∈ acc ∨ ∃ p, p ∈ ps ∧ x = mkEntry p t := by
  induction ps with
  | nil => intro acc _ _ x; simp
  | cons p ps ih =>
    intro acc hdisj hpw x
    have hfresh : ∀ a ∈ acc, ¬ a.record.id = (mkEntry p t).record.id := by
      intro a ha
      exact hdisj p (by simp) a ha
    have hdisj2 : ∀ q ∈ ps, ∀ a ∈ addEntry acc (mkEntry p t), ¬ a.record.id = q.id := by
      intro q hq a ha
      rcases (mem_addEntry acc (mkEntry p t) hfresh a).mp ha with heq | hmem
      · subst heq
        exact (List.pairwise_cons.mp hpw).1 q hq
      · exact hdisj q (by simp [hq]) a hmem
    have step : (p :: ps).foldl (fun st q => addEntry st (mkEntry q t)) acc
        = ps.foldl (fun st q => addEntry st (mkEntry q t)) (addEntry acc (mkEntry p t)) := by
      simp [List.foldl_cons]
    rw [step, ih (addEntry acc (mkEntry p t)) hdisj2 (List.pairwise_cons.mp hpw).2 x,
      mem_addEntry acc (mkEntry p t) hfresh x]
    simp only [List.mem_cons]
    constructor
    · rintro ((h | h) | ⟨q, hq, hx⟩)
      · exact Or.inr ⟨p, Or.inl rfl, h⟩
      · exact Or.inl h
      · exact Or.inr ⟨q, Or.inr hq, hx⟩
    · rintro (h | ⟨q, (hq | hq), hx⟩)
      · exact Or.inl (Or.inr h)
      · exact Or.inl (Or.inl (by rw [hx, hq]))
      · exact Or.inr ⟨q, hq, hx⟩

theorem mem_stripped_buildStore (ps : List PRecord) (t : Int)
    (hpw : List.Pairwise (fun a b : PRecord => a.id ≠ b.id) ps) (r : PRecord) :
    r ∈ stripped (buildStore ps t) ↔ r ∈ ps := by
  unfold stripped buildStore
  rw [List.mem_map]
  constructor
  · rintro ⟨e, he, hrec⟩
    rcases (mem_foldAdd t ps [] (by simp) hpw e).mp he with h | ⟨p, hp, hep⟩
    · simp at h
    · subst hep
      rw [← hrec]
      exact hp
  · intro hr
    exact ⟨mkEntry r t, (mem_foldAdd t ps [] (by simp) hpw _).mpr (Or.inr ⟨r, hr, rfl⟩), rfl⟩

/-- Unfolding of `productCacheGet` on a state with well-formed metadata. -/
theorem productCacheGet_eq (store : List StoredEntry) (t : Int) (c : Nat)
    (h : String) (u : Option UserBlob) (now : Int) :
    productCacheGet now ⟨store, some (MetaBlob.good t c h), u⟩
      = if now - t > CACHE_DURATION
        then (productCacheClear ⟨store, some (MetaBlob.good t c h), u⟩, none)
        else (⟨store, some (MetaBlob.good t c h), u⟩,
          if (stripped store).length > 0 then some (stripped store) else none) := rfl

/-- Unfolding of `userCacheGet` on a state with a well-formed user blob. -/
theorem userCacheGet_eq (ps : List StoredEntry) (pm : Option MetaBlob)
    (d : Json) (t : Int) (h : String) (now : Int) :
    userCacheGet now ⟨ps, pm, some (UserBlob.good d t h)⟩
      = if now - t > CACHE_DURATION then (⟨ps, pm, none⟩, none)
        else if generateHash d = h then (⟨ps, pm, some (UserBlob.good d t h)⟩, some d)
        else (⟨ps, pm, none⟩, none) := rfl

/-! ### Claim C1 -/

/-- Cache state with fresh metadata whose `count` field (5) differs from the
number of records actually stored (1). -/
def c1state : CacheSt :=
  ⟨[⟨⟨1, Json.null⟩, 0, "h"⟩], some (MetaBlob.good 0 5 "m"), none⟩

/-- C1 fails on the code: in a state whose metadata is fresh but whose
`count` (5) differs from the number of stored records (1),
`ProductCache.get()` does not treat the cache as torn — it returns the one
stored record instead of `null`. -/
theorem C1_counterexample :
    (productCacheGet 0 c1state).2 = some [⟨1, Json.null⟩] ∧
      (productCacheGet 0 c1state).2 ≠ none :=
  ⟨rfl, fun h => Option.noConfusion h⟩

/-- C1 (amended): `ProductCache.get()` never consults the metadata `count`
field.  Whenever the metadata is fresh and the store is nonempty — even
when `count` differs from the number of stored records — it returns the
stored records with metadata stripped, not a miss. -/
theorem C1_get_ignores_count (store : List StoredEntry) (t : Int) (count : Nat)
    (h : String) (u : Option UserBlob) (now : Int)
    (hne : store ≠ []) (_hcount : count ≠ store.length)
    (hfresh : now - t ≤ CACHE_DURATION) :
    (productCacheGet now ⟨store, some (MetaBlob.good t count h), u⟩).2
      = some (stripped store) := by
  have hlen : (stripped store).length > 0 := by
    unfold stripped
    rw [List.length_map]
    exact List.length_pos.mpr hne
  rw [productCacheGet_eq, if_neg (by omega)]
  simp only [if_pos hlen]

/-- Witness for `C1_get_ignores_count` at the concrete torn state. -/
theorem C1_witness :
    ([⟨⟨1, Json.null⟩, 0, "h"⟩] : List StoredEntry) ≠ [] ∧ (5 : Nat) ≠ 1 ∧
      (0 : Int) - 0 ≤ CACHE_DURATION ∧
      (productCacheGet 0 c1state).2 = some (stripped [⟨⟨1, Json.null⟩, 0, "h"⟩]) :=
  ⟨by simp, by decide, by decide,
    C1_get_ignores_count [⟨⟨1, Json.null⟩, 0, "h"⟩] 0 5 "m" none 0
      (by simp) (by decide) (by decide)⟩

/-! ### Claim C2 -/

/-- C2 fails on the code: the profile `"Ж"` is JSON-serializable, but its
serialization contains a UTF-16 code unit above 255, so the `btoa` call in
`UserCache.set` throws; the `catch` swallows the error and nothing is
stored.  The immediate `UserCache.get()` then returns `null`, not a value
deep-equal to the profile. -/
theorem C2_counterexample :
    (userCacheGet 0 (userCacheSet (Json.str "Ж") 0 emptySt)).2 = none ∧
      (userCacheGet 0 (userCacheSet (Json.str "Ж") 0 emptySt)).2 ≠ some (Json.str "Ж") :=
  ⟨rfl, fun h => Option.noConfusion h⟩

/-- C2 (amended): for every user profile whose serialized cache record lies
in `btoa`'s Latin-1 domain, `UserCache.set(u)` followed by
`UserCache.get()` within the freshness window and with no tampering
returns exactly `u`. -/
theorem C2_set_get_roundtrip (u : Json) (t now : Int) (s : CacheSt)
    (henc : latin1Ok (stringifyJson (userCacheData u t)) = true)
    (hfresh : now - t ≤ CACHE_DURATION) :
    (userCacheGet now (userCacheSet u t s)).2 = some u := by
  obtain ⟨ps, pm, us⟩ := s
  unfold userCacheSet
  rw [if_pos henc]
  show (userCacheGet now ⟨ps, pm, some (UserBlob.good u t (generateHash u))⟩).2 = some u
  rw [userCacheGet_eq, if_neg (by omega), if_pos rfl]

/-- Witness for `C2_set_get_roundtrip` at the profile `"x"`. -/
theorem C2_witness :
    latin1Ok (stringifyJson (userCacheData (Json.str "x") 0)) = true ∧
      (0 : Int) - 0 ≤ CACHE_DURATION ∧
      (userCacheGet 0 (userCacheSet (Json.str "x") 0 emptySt)).2 = some (Json.str "x") :=
  ⟨rfl, by decide, C2_set_get_roundtrip (Json.str "x") 0 0 emptySt rfl (by decide)⟩

/-! ### Claim C3 -/

/-- Cache state holding one product record cached at time 0. -/
def c3state : CacheSt :=
  ⟨[⟨⟨1, Json.null⟩, 0, "h"⟩], some (MetaBlob.good 0 1 "m"), none⟩

/-- C3 fails on the code for `ProductCache.getById`: at time 1800001 the
entry cached at 0 has exceeded the 30-minute window, and `getById` does
return a miss — but it leaves the expired entry in persistent storage
instead of evicting it (the returned state is unchanged and still holds
the entry). -/
theorem C3_counterexample :
    productCacheGetById 1800001 1 c3state = (c3state, none) ∧
      c3state.productsStore ≠ [] :=
  ⟨rfl, by simp [c3state]⟩

/-- C3 (amended): on an entry older than the freshness window,
`ProductCache.get()` and `UserCache.get()` return a miss and evict the
expired data from persistent storage, while `ProductCache.getById` only
returns the miss (its eviction side effect does not exist in the code). -/
theorem C3_expiry_eviction :
    (∀ (store : List StoredEntry) (t : Int) (c : Nat) (h : String)
        (u : Option UserBlob) (now : Int), now - t > CACHE_DURATION →
        productCacheGet now ⟨store, some (MetaBlob.good t c h), u⟩
          = (productCacheClear ⟨store, some (MetaBlob.good t c h), u⟩, none)) ∧
    (∀ (ps : List StoredEntry) (pm : Option MetaBlob) (d : Json) (t : Int)
        (h : String) (now : Int), now - t > CACHE_DURATION →
        userCacheGet now ⟨ps, pm, some (UserBlob.good d t h)⟩
          = (userCacheClear ⟨ps, pm, some (UserBlob.good d t h)⟩, none)) := by
  constructor
  · intro store t c h u now hexp
    rw [productCacheGet_eq, if_pos hexp]
  · intro ps pm d t h now hexp
    rw [userCacheGet_eq, if_pos hexp]
    rfl

/-- Witness for `C3_expiry_eviction` at a state with both caches stale. -/
theorem C3_witness :
    productCacheGet 1800001 ⟨[], some (MetaBlob.good 0 0 "m"), some (UserBlob.good Json.null 0 "u")⟩
        = (productCacheClear ⟨[], some (MetaBlob.good 0 0 "m"), some (UserBlob.good Json.null 0 "u")⟩, none) ∧
      userCacheGet 1800001 ⟨[], some (MetaBlob.good 0 0 "m"), some (UserBlob.good Json.null 0 "u")⟩
        = (userCacheClear ⟨[], some (MetaBlob.good 0 0 "m"), some (UserBlob.good Json.null 0 "u")⟩, none) :=
  ⟨C3_expiry_eviction.1 [] 0 0 "m" (some (UserBlob.good Json.null 0 "u")) 1800001 (by decide),
    C3_expiry_eviction.2 [] (some (MetaBlob.good 0 0 "m")) Json.null 0 "u" 1800001 (by decide)⟩

/-! ### Claim C4 -/

/-- User slot whose payload was tampered from `"Aa"` to `"BB"` while the
stored hash — `generateHash` of the original `"Aa"` — was left unchanged. -/
def c4state : CacheSt :=
  ⟨[], none, some (UserBlob.good (Json.str "BB") 0 (generateHash (Json.str "Aa")))⟩

/-- C4 fails on the code: the 32-bit hash collides on the payloads `"Aa"`
and `"BB"`, so after mutating the stored payload from `"Aa"` to `"BB"`
without touching the stored hash, `UserCache.get()` returns the tampered
value (and keeps the slot) instead of returning `null` and clearing it. -/
theorem C4_counterexample :
    generateHash (Json.str "BB") = generateHash (Json.str "Aa") ∧
      userCacheGet 0 c4state = (c4state, some (Json.str "BB")) :=
  ⟨rfl, rfl⟩

/-- C4 (amended): if the persisted payload is mutated to a value whose
recomputed hash differs from the stored hash, a fresh `UserCache.get()`
returns `null` and removes the slot from storage. -/
theorem C4_tamper_detected (ps : List StoredEntry) (pm : Option MetaBlob)
    (u u2 : Json) (t now : Int)
    (hmut : generateHash u2 ≠ generateHash u) (hfresh : now - t ≤ CACHE_DURATION) :
    userCacheGet now ⟨ps, pm, some (UserBlob.good u2 t (generateHash u))⟩
      = (⟨ps, pm, none⟩, none) := by
  rw [userCacheGet_eq, if_neg (by omega), if_neg hmut]

/-- Witness for `C4_tamper_detected`: payload tampered from `"a"` to
`"b"`, whose hashes differ. -/
theorem C4_witness :
    generateHash (Json.str "b") ≠ generateHash (Json.str "a") ∧
      (0 : Int) - 0 ≤ CACHE_DURATION ∧
      userCacheGet 0 ⟨[], none, some (UserBlob.good (Json.str "b") 0 (generateHash (Json.str "a")))⟩
        = (⟨[], none, none⟩, none) :=
  ⟨by decide, by decide,
    C4_tamper_detected [] none (Json.str "a") (Json.str "b") 0 0 (by decide) (by decide)⟩

/-! ### Claim C5 -/

/-- C5 names a real bug in the code: every cache operation is wrapped in
`try`/`catch` except `ProductCache.isExpired`, which calls `JSON.parse` on
the raw metadata slot.  On a non-JSON metadata entry it throws a
`SyntaxError` to its caller instead of degrading to `true`. -/
theorem C5_isExpired_raises :
    productCacheIsExpired 0 ⟨[], some MetaBlob.bad, none⟩ = Except.error () :=
  rfl

/-! ### Claim C6 -/

/-- Populated, fresh product cache used for the checkout scenario. -/
def c6state : CacheSt :=
  ⟨[⟨⟨1, Json.null⟩, 0, "h"⟩], some (MetaBlob.good 0 1 "m"), none⟩

/-- C6 fails on the code: `invalidateCache` returns `undefined` and calls
the async `ProductCache.clear()` without awaiting it, so
`await invalidateCache('products')` in `apiCheckout` does not wait for the
storage clear.  At the moment `apiCheckout` resolves (response carrying an
`order` field, populated fresh cache), the storage is untouched and
`ProductCache.get()` still returns the old catalog, not `null`; the clear
is merely pending. -/
theorem C6_counterexample :
    (apiCheckout ⟨true, false⟩ c6state).1 = c6state ∧
      (productCacheGet 0 (apiCheckout ⟨true, false⟩ c6state).1).2 = some [⟨1, Json.null⟩] ∧
      (apiCheckout ⟨true, false⟩ c6state).2 = [PendingEff.clearProducts] :=
  ⟨rfl, rfl, rfl⟩

/-- C6 (amended): on a response with an `order` (or `success`) field,
`apiCheckout` initiates the product-cache invalidation but does not await
it; only once the initiated clear has completed does
`ProductCache.get()` return `null`. -/
theorem C6_after_pending_clear (resp : CheckoutResp) (s : CacheSt) (now : Int)
    (h : (resp.hasOrder || resp.hasSuccess) = true) :
    (productCacheGet now (runPending (apiCheckout resp s).2 (apiCheckout resp s).1)).2
      = none := by
  unfold apiCheckout
  rw [if_pos h]
  unfold invalidateCache runPending
  simp [runEff, productCacheClear, productCacheGet]

/-- Witness for `C6_after_pending_clear` on a populated cache and an
order-bearing response. -/
theorem C6_witness :
    ((⟨true, false⟩ : CheckoutResp).hasOrder || (⟨true, false⟩ : CheckoutResp).hasSuccess) = true ∧
      (productCacheGet 0 (runPending (apiCheckout ⟨true, false⟩ c6state).2
          (apiCheckout ⟨true, false⟩ c6state).1)).2 = none :=
  ⟨rfl, C6_after_pending_clear ⟨true, false⟩ c6state 0 rfl⟩

/-! ### Claim C7 -/

/-- C7 holds: once a call to `invalidateCache('all')` has completed —
including the product-store clear it initiates asynchronously (the
user-slot removal is synchronous) — `ProductCache.get()` and
`UserCache.get()` both return `null`, from any starting cache state and at
any query times. -/
theorem C7_invalidate_all (s : CacheSt) (now now2 : Int) :
    (productCacheGet now (runPending (invalidateCache (some CacheScope.all) s).2
        (invalidateCache (some CacheScope.all) s).1)).2 = none ∧
      (userCacheGet now2 (runPending (invalidateCache (some CacheScope.all) s).2
        (invalidateCache (some CacheScope.all) s).1)).2 = none := by
  constructor
  · simp [invalidateCache, runPending, runEff, productCacheClear, userCacheClear,
      productCacheGet]
  · simp [invalidateCache, runPending, runEff, productCacheClear, userCacheClear,
      userCacheGet]

/-! ### Claim C8 -/

/-- C8 fails on the code at the empty list: after `ProductCache.set([])`
the metadata is fresh, but `get()` maps the empty store through
`products.length > 0 ? products : null` and returns `null` — a miss — not
the empty set of records that was provided. -/
theorem C8_counterexample :
    (productCacheGet 0 (productCacheSet [] 0 emptySt)).2 = none ∧
      ¬ ∃ l : List PRecord, (productCacheGet 0 (productCacheSet [] 0 emptySt)).2 = some l :=
  ⟨rfl, fun ⟨_, hl⟩ => Option.noConfusion hl⟩

/-- C8 (amended): for every nonempty list of product records with
pairwise-distinct ids, `ProductCache.set` followed by `ProductCache.get()`
within the freshness window returns a hit holding exactly the records
provided, as a set (order-insensitive) — never a mixture with previously
cached records; for the empty list, `get()` returns `null`. -/
theorem C8_set_get_snapshot (ps : List PRecord) (t now : Int) (s : CacheSt)
    (hne : ps ≠ [])
    (hids : (ps.map (fun p => p.id)).Pairwise (fun a b => a ≠ b))
    (hfresh : now - t ≤ CACHE_DURATION) :
    ∃ l, (productCacheGet now (productCacheSet ps t s)).2 = some l ∧
      ∀ r : PRecord, r ∈ l ↔ r ∈ ps := by
  have hpw : List.Pairwise (fun a b : PRecord => a.id ≠ b.id) ps :=
    List.pairwise_map.mp hids
  refine ⟨stripped (buildStore ps t), ?_, fun r => mem_stripped_buildStore ps t hpw r⟩
  obtain ⟨p, ps', hps⟩ := List.exists_cons_of_ne_nil hne
  have hmem : p ∈ stripped (buildStore ps t) := by
    rw [mem_stripped_buildStore ps t hpw p, hps]
    simp
  have hlen : (stripped (buildStore ps t)).length > 0 := List.length_pos_of_mem hmem
  unfold productCacheSet
  show (productCacheGet now ⟨buildStore ps t,
    some (MetaBlob.good t ps.length (generateHash (Json.arr (ps.map (fun p => p.data))))),
    s.userSlot⟩).2 = some (stripped (buildStore ps t))
  rw [productCacheGet_eq, if_neg (by omega)]
  simp only [if_pos hlen]

/-- Witness for `C8_set_get_snapshot` at the singleton catalog. -/
theorem C8_witness :
    ([⟨1, Json.null⟩] : List PRecord) ≠ [] ∧
      (([⟨1, Json.null⟩] : List PRecord).map (fun p => p.id)).Pairwise (fun a b => a ≠ b) ∧
      (0 : Int) - 0 ≤ CACHE_DURATION ∧
      ∃ l, (productCacheGet 0 (productCacheSet [⟨1, Json.null⟩] 0 emptySt)).2 = some l ∧
        ∀ r : PRecord, r ∈ l ↔ r ∈ ([⟨1, Json.null⟩] : List PRecord) :=
  ⟨by simp, by simp, by decide,
    C8_set_get_snapshot [⟨1, Json.null⟩] 0 0 emptySt (by simp) (by simp) (by decide)⟩

/-! ### Claim C9 -/

/-- C9 holds: when `ProductCache.getById` misses, `apiGetProduct` returns
the network response and leaves the entire cache state — structured store
records, collection metadata, and the user slot alike — unchanged;
individual product fetches never write to the cache. -/
theorem C9_getProduct_frame (now pid : Int) (resp : Json) (s : CacheSt)
    (hmiss : (productCacheGetById now pid s).2 = none) :
    apiGetProduct now pid resp s = (s, resp) := by
  unfold apiGetProduct
  rw [hmiss]

/-- Witness for `C9_getProduct_frame` on the empty cache. -/
theorem C9_witness :
    (productCacheGetById 0 1 emptySt).2 = none ∧
      apiGetProduct 0 1 Json.null emptySt = (emptySt, Json.null) :=
  ⟨rfl, C9_getProduct_frame 0 1 Json.null emptySt rfl⟩

/-! ### Claim C10 -/

/-- C10 holds: the stored per-record `_hash` (and the collection hash in
the metadata) are never recomputed or compared on the read paths.  For an
arbitrary stored hash string — matching the record's contents or not —
both `ProductCache.getById` and `ProductCache.get` strip the metadata and
return the record as a hit while fresh; product-side corruption is never
detected at read time. -/
theorem C10_hash_not_checked (p : PRecord) (tc tm : Int) (cnt : Nat)
    (hstore hmeta : String) (u : Option UserBlob) (now : Int)
    (hfresh1 : now - tc ≤ CACHE_DURATION) (hfresh2 : now - tm ≤ CACHE_DURATION) :
    (productCacheGetById now p.id
        ⟨[⟨p, tc, hstore⟩], some (MetaBlob.good tm cnt hmeta), u⟩).2 = some p ∧
      (productCacheGet now
        ⟨[⟨p, tc, hstore⟩], some (MetaBlob.good tm cnt hmeta), u⟩).2 = some [p] := by
  constructor
  · unfold productCacheGetById
    rw [show (([⟨p, tc, hstore⟩] : List StoredEntry).find?
        (fun e => e.record.id == p.id)) = some ⟨p, tc, hstore⟩ from by simp]
    simp only [if_neg (by omega : ¬ now - tc > CACHE_DURATION)]
  · rw [productCacheGet_eq, if_neg (by omega)]
    simp [stripped]

/-- Witness for `C10_hash_not_checked` with a stored hash (`"zzz"`) that
provably differs from the record's recomputed hash. -/
theorem C10_witness :
    "zzz" ≠ generateHash Json.null ∧
      (0 : Int) - 0 ≤ CACHE_DURATION ∧
      (productCacheGetById 0 1
          ⟨[⟨⟨1, Json.null⟩, 0, "zzz"⟩], some (MetaBlob.good 0 1 "meta"), none⟩).2
        = some ⟨1, Json.null⟩ ∧
      (productCacheGet 0
          ⟨[⟨⟨1, Json.null⟩, 0, "zzz"⟩], some (MetaBlob.good 0 1 "meta"), none⟩).2
        = some [⟨1, Json.null⟩] :=
  ⟨by decide, by decide,
    (C10_hash_not_checked ⟨1, Json.null⟩ 0 0 1 "zzz" "meta" none 0 (by decide) (by decide)).1,
    (C10_hash_not_checked ⟨1, Json.null⟩ 0 0 1 "zzz" "meta" none 0 (by decide) (by decide)).2⟩
